import Mathlib

/-!
# Verification of the seekcamera-python binding layer

A shallow embedding, in Lean 4, of the original logic of the
`seekcamera-python` repository: the error-status translation
(`seekcamera/error.py`), the manager event-callback bridge and device-list
bookkeeping (`seekcamera/camera.py`, `seekcamera/_clib.py`), chip-ID based
device equality, the packed frame-header binary layout
(`CSeekCameraFrameHeader` in `seekcamera/_clib.py`), and the typed
numpy view over raw frame pixels (`SeekFrame.data` in
`seekcamera/camera.py`).

Python integers are modelled as `Int` (statuses) or `Nat` (sizes, byte
values); byte buffers as `List Nat` with each entry a byte value; raised
exceptions as the `Except` monad.  Every definition is translated from the
source files; definitions whose doc comment says so mirror the wording of
the specification instead, for refinement comparisons.
-/

deriving instance DecidableEq for Except

namespace Seekcamera

/-! ## Error taxonomy (`seekcamera/error.py`)

Each subclass of `SeekCameraError` carries a class method `_exception_for`
that recognises exactly one native status code.  `error_from_status`
iterates over `SeekCameraError.__subclasses__()` (definition order) and
returns the first class whose `_exception_for` accepts the status; when no
subclass matches, it returns the base class `SeekCameraError` itself.
`baseError` below stands for that base class. -/

/-- The error classes of `seekcamera/error.py`: the base class
`SeekCameraError` (`baseError`) and its 29 subclasses, one constructor per
class, in definition order. -/
inductive SeekErrorKind where
  | baseError
  | deviceCommunicationError
  | invalidParameterError
  | permissionsError
  | noDeviceError
  | deviceNotFoundError
  | deviceBusyError
  | timeoutError
  | overflowError
  | unknownRequestError
  | interruptedError
  | outOfMemoryError
  | notSupportedError
  | otherError
  | cannotPerformRequestError
  | flashAccessFailure
  | implementationError
  | requestPendingError
  | invalidFirmwareImageError
  | invalidKeyError
  | sensorCommunicationError
  | outOfRangeError
  | verifyFailedError
  | systemCallFailedError
  | fileDoesNotExistError
  | directoryDoesNotExistError
  | fileReadFailedError
  | fileWriteFailedError
  | notImplementedError
  | notPairedError
  deriving DecidableEq, Repr, Fintype

/-- `_exception_for` of each error class: `True` exactly on the one status
code the class is responsible for.  The base class's `_exception_for` is
`pass`, i.e. it returns `None`, which is falsy. -/
def exception_for (cls : SeekErrorKind) (status : Int) : Bool :=
  match cls with
  | .baseError => false
  | .deviceCommunicationError => status == -1
  | .invalidParameterError => status == -2
  | .permissionsError => status == -3
  | .noDeviceError => status == -4
  | .deviceNotFoundError => status == -5
  | .deviceBusyError => status == -6
  | .timeoutError => status == -7
  | .overflowError => status == -8
  | .unknownRequestError => status == -9
  | .interruptedError => status == -10
  | .outOfMemoryError => status == -11
  | .notSupportedError => status == -12
  | .otherError => status == -99
  | .cannotPerformRequestError => status == -103
  | .flashAccessFailure => status == -104
  | .implementationError => status == -105
  | .requestPendingError => status == -106
  | .invalidFirmwareImageError => status == -107
  | .invalidKeyError => status == -108
  | .sensorCommunicationError => status == -109
  | .outOfRangeError => status == -301
  | .verifyFailedError => status == -302
  | .systemCallFailedError => status == -303
  | .fileDoesNotExistError => status == -400
  | .directoryDoesNotExistError => status == -401
  | .fileReadFailedError => status == -402
  | .fileWriteFailedError => status == -403
  | .notImplementedError => status == -1000
  | .notPairedError => status == -1001

/-- `SeekCameraError.__subclasses__()`: the direct subclasses of the base
class, in definition order (CPython reports direct subclasses in the order
their class statements executed). -/
def subclasses : List SeekErrorKind :=
  [ .deviceCommunicationError, .invalidParameterError, .permissionsError,
    .noDeviceError, .deviceNotFoundError, .deviceBusyError, .timeoutError,
    .overflowError, .unknownRequestError, .interruptedError,
    .outOfMemoryError, .notSupportedError, .otherError,
    .cannotPerformRequestError, .flashAccessFailure, .implementationError,
    .requestPendingError, .invalidFirmwareImageError, .invalidKeyError,
    .sensorCommunicationError, .outOfRangeError, .verifyFailedError,
    .systemCallFailedError, .fileDoesNotExistError,
    .directoryDoesNotExistError, .fileReadFailedError,
    .fileWriteFailedError, .notImplementedError, .notPairedError ]

/-- `is_error(status)`: a status code is an error iff it is non-zero. -/
def is_error (status : Int) : Bool :=
  status != 0

/-- `error_from_status(status)`: raises `SeekCameraInvalidParameterError`
(modelled as `Except.error`) when the status is not an error; otherwise
returns (`Except.ok`) the first subclass whose `_exception_for` accepts the
status, or the base class `SeekCameraError` when none does. -/
def error_from_status (status : Int) : Except SeekErrorKind SeekErrorKind :=
  if ¬ is_error status then
    .error .invalidParameterError
  else
    match subclasses.find? (fun cls => exception_for cls status) with
    | some cls => .ok cls
    | none => .ok .baseError

/-- The error class that `raise error_from_status(status)` ends up raising:
either the class returned by `error_from_status`, or — when `status` is not
an error — the `SeekCameraInvalidParameterError` escaping from
`error_from_status` itself. -/
def raise_from_status (status : Int) : SeekErrorKind :=
  match error_from_status status with
  | .ok cls => cls
  | .error e => e

/-- The native status codes claimed by some subclass (the documented
taxonomy codes). -/
def mappedStatusCodes : List Int :=
  [ -1, -2, -3, -4, -5, -6, -7, -8, -9, -10, -11, -12, -99,
    -103, -104, -105, -106, -107, -108, -109, -301, -302, -303,
    -400, -401, -402, -403, -1000, -1001 ]

/-! ### Python exception channels

Accessors can fail in two ways: by raising one of the `SeekCameraError`
classes above, or by raising a Python builtin (`ValueError` from an `IntEnum`
constructor applied to an unknown value, `AttributeError` from a missing
structure field).  `PyError` is the union of those channels. -/

/-- A raised Python exception: a `SeekCameraError` class, a builtin
`ValueError`, or a builtin `AttributeError`. -/
inductive PyError where
  | seekError (kind : SeekErrorKind)
  | valueError
  | attributeError
  deriving DecidableEq, Repr

/-! ## Color palette getter (`SeekCamera.color_palette`, camera.py)

The getter issues one native call which fills an output integer and returns
a status; the Python wrapper raises on a non-zero status and otherwise
wraps the integer in the `SeekCameraColorPalette` enumeration. -/

/-- `SeekCameraColorPalette` (camera.py): enumerated display palettes. -/
inductive SeekCameraColorPalette where
  | WHITE_HOT | BLACK_HOT | SPECTRA | PRISM | TYRIAN | IRON | AMBER
  | HI | GREEN | USER_0 | USER_1 | USER_2 | USER_3 | USER_4
  deriving DecidableEq, Repr

/-- `SeekCameraColorPalette(value)`: the `IntEnum` constructor; `none`
models the `ValueError` raised on an integer that is not a member value. -/
def SeekCameraColorPalette.ofInt (value : Int) : Option SeekCameraColorPalette :=
  match value with
  | 0 => some .WHITE_HOT
  | 1 => some .BLACK_HOT
  | 2 => some .SPECTRA
  | 3 => some .PRISM
  | 4 => some .TYRIAN
  | 5 => some .IRON
  | 6 => some .AMBER
  | 7 => some .HI
  | 8 => some .GREEN
  | 9 => some .USER_0
  | 10 => some .USER_1
  | 11 => some .USER_2
  | 12 => some .USER_3
  | 13 => some .USER_4
  | _ => none

/-- The `color_palette` property getter, as a function of what the native
call `cseekcamera_get_color_palette` produced: the filled output integer
`palette` and the returned `status`.  Mirrors camera.py:

    palette, status = _clib.cseekcamera_get_color_palette(self._camera)
    if is_error(status):
        raise error_from_status(status)
    return SeekCameraColorPalette(palette.value)
-/
def color_palette_get (palette : Int) (status : Int) :
    Except PyError SeekCameraColorPalette :=
  if is_error status then
    .error (.seekError (raise_from_status status))
  else
    match SeekCameraColorPalette.ofInt palette with
    | some p => .ok p
    | none => .error .valueError

/-! ## Enumerated property setters (`camera.py`)

The enumerated configuration types of camera.py, and the property setters
that take them.  A setter receives an arbitrary Python value; the setters
for color palette, AGC mode, shutter mode, temperature unit, linear AGC
lock mode and HistEQ gain-limit-factor mode first check
`isinstance(value, TheEnum)` and raise `SeekCameraInvalidParameterError`
before anything else when the check fails; the HistEQ
plateau-redistribution-mode setter has no such check.

After the check (or immediately, for the unchecked setter) the body
evaluates `_clib.cseekcamera_set_<name>(self._camera, value)`.  That is a
*module attribute lookup* followed by a call: \_clib.py defines wrapper
functions for some setters only, and looking up a name the module does
not define raises `AttributeError` before any native call — \_clib.py
defines no `cseekcamera_set_linear_agc_lock_mode`,
`cseekcamera_set_histeq_agc_gain_limit_factor_mode` or
`cseekcamera_set_histeq_agc_plateau_redistribution_mode`, and nothing
patches the module dynamically.  Each setter is modelled as a function of
the received value and of the status the native set call would return,
producing the list of values actually passed to the native layer (the
record a test double would keep) together with the raised/returned
outcome. -/

/-- `SeekCameraAGCMode` (camera.py): LINEAR=0, HISTEQ=1. -/
inductive SeekCameraAGCMode where
  | LINEAR | HISTEQ
  deriving DecidableEq, Repr

/-- `SeekCameraShutterMode` (camera.py): AUTO=0, MANUAL=1. -/
inductive SeekCameraShutterMode where
  | AUTO | MANUAL
  deriving DecidableEq, Repr

/-- `SeekCameraTemperatureUnit` (camera.py): CELSIUS=0, FAHRENHEIT=1,
KELVIN=2. -/
inductive SeekCameraTemperatureUnit where
  | CELSIUS | FAHRENHEIT | KELVIN
  deriving DecidableEq, Repr

/-- `SeekCameraLinearAGCLockMode` (camera.py): AUTO=0, MANUAL=1,
MANUAL_MIN=2, MANUAL_MAX=3. -/
inductive SeekCameraLinearAGCLockMode where
  | AUTO | MANUAL | MANUAL_MIN | MANUAL_MAX
  deriving DecidableEq, Repr

/-- `SeekCameraHistEQAGCGainLimitFactorMode` (camera.py): AUTO=0,
MANUAL=1. -/
inductive SeekCameraHistEQAGCGainLimitFactorMode where
  | AUTO | MANUAL
  deriving DecidableEq, Repr

/-- `SeekCameraHistEQAGCPlateauRedistributionMode` (camera.py):
DISABLED=0, ALL_BINS=1, ACTIVE_BINS_ONLY=2. -/
inductive SeekCameraHistEQAGCPlateauRedistributionMode where
  | DISABLED | ALL_BINS | ACTIVE_BINS_ONLY
  deriving DecidableEq, Repr

/-- A Python value handed to an enumerated property setter: a member of
one of the enumeration classes above, or a raw integer (which is *not* an
instance of any of them — `IntEnum` members are `int`s, but plain `int`s
are not enum members). -/
inductive PyVal where
  | paletteVal (p : SeekCameraColorPalette)
  | agcModeVal (m : SeekCameraAGCMode)
  | shutterModeVal (m : SeekCameraShutterMode)
  | temperatureUnitVal (u : SeekCameraTemperatureUnit)
  | linearAGCLockModeVal (m : SeekCameraLinearAGCLockMode)
  | gainLimitFactorModeVal (m : SeekCameraHistEQAGCGainLimitFactorMode)
  | plateauRedistributionModeVal (m : SeekCameraHistEQAGCPlateauRedistributionMode)
  | intVal (n : Int)
  deriving DecidableEq, Repr

/-- `isinstance(v, SeekCameraColorPalette)`. -/
def isColorPalette : PyVal → Bool
  | .paletteVal _ => true
  | _ => false

/-- `isinstance(v, SeekCameraAGCMode)`. -/
def isAGCMode : PyVal → Bool
  | .agcModeVal _ => true
  | _ => false

/-- `isinstance(v, SeekCameraShutterMode)`. -/
def isShutterMode : PyVal → Bool
  | .shutterModeVal _ => true
  | _ => false

/-- `isinstance(v, SeekCameraTemperatureUnit)`. -/
def isTemperatureUnit : PyVal → Bool
  | .temperatureUnitVal _ => true
  | _ => false

/-- `isinstance(v, SeekCameraLinearAGCLockMode)`. -/
def isLinearAGCLockMode : PyVal → Bool
  | .linearAGCLockModeVal _ => true
  | _ => false

/-- `isinstance(v, SeekCameraHistEQAGCGainLimitFactorMode)`. -/
def isGainLimitFactorMode : PyVal → Bool
  | .gainLimitFactorModeVal _ => true
  | _ => false

/-- `isinstance(v, SeekCameraHistEQAGCPlateauRedistributionMode)`. -/
def isPlateauRedistributionMode : PyVal → Bool
  | .plateauRedistributionModeVal _ => true
  | _ => false

/-- The `cseekcamera_set_*` wrapper functions \_clib.py actually defines
(its `def` statements, nothing else creates module attributes): the
module attributes a `_clib.cseekcamera_set_<name>` lookup can resolve. -/
def clibSetFunctions : List String :=
  [ "cseekcamera_set_thermography_window", "cseekcamera_set_color_palette",
    "cseekcamera_set_color_palette_data", "cseekcamera_set_agc_mode",
    "cseekcamera_set_shutter_mode", "cseekcamera_set_temperature_unit",
    "cseekcamera_set_scene_emissivity",
    "cseekcamera_set_thermography_offset",
    "cseekcamera_set_gradient_correction_filter_enable",
    "cseekcamera_set_flat_scene_correction_filter_enable",
    "cseekcamera_set_filter_state" ]

/-- The evaluation of `_clib.<fname>(self._camera, value)` in a setter
body: the module attribute lookup raises `AttributeError` (before any
native call) when \_clib.py defines no function named `fname`; otherwise
the wrapper issues the native set call with the value and the setter
raises on a non-zero returned status. -/
def nativeSetCall (fname : String) (value : PyVal) (status : Int) :
    List PyVal × Except PyError Unit :=
  if fname ∈ clibSetFunctions then
    ([value],
     if is_error status then .error (.seekError (raise_from_status status))
     else .ok ())
  else
    ([], .error .attributeError)

/-- `color_palette` setter (camera.py): isinstance check, then
`_clib.cseekcamera_set_color_palette`. -/
def color_palette_set (palette : PyVal) (status : Int) :
    List PyVal × Except PyError Unit :=
  if ¬ isColorPalette palette then
    ([], .error (.seekError .invalidParameterError))
  else nativeSetCall "cseekcamera_set_color_palette" palette status

/-- `agc_mode` setter (camera.py): isinstance check, then
`_clib.cseekcamera_set_agc_mode`. -/
def agc_mode_set (mode : PyVal) (status : Int) :
    List PyVal × Except PyError Unit :=
  if ¬ isAGCMode mode then
    ([], .error (.seekError .invalidParameterError))
  else nativeSetCall "cseekcamera_set_agc_mode" mode status

/-- `shutter_mode` setter (camera.py): isinstance check, then
`_clib.cseekcamera_set_shutter_mode`. -/
def shutter_mode_set (mode : PyVal) (status : Int) :
    List PyVal × Except PyError Unit :=
  if ¬ isShutterMode mode then
    ([], .error (.seekError .invalidParameterError))
  else nativeSetCall "cseekcamera_set_shutter_mode" mode status

/-- `temperature_unit` setter (camera.py): isinstance check, then
`_clib.cseekcamera_set_temperature_unit`. -/
def temperature_unit_set (unit : PyVal) (status : Int) :
    List PyVal × Except PyError Unit :=
  if ¬ isTemperatureUnit unit then
    ([], .error (.seekError .invalidParameterError))
  else nativeSetCall "cseekcamera_set_temperature_unit" unit status

/-- `linear_agc_lock_mode` setter (camera.py): isinstance check, then
`_clib.cseekcamera_set_linear_agc_lock_mode` — a name \_clib.py does not
define, so the post-check path raises `AttributeError`. -/
def linear_agc_lock_mode_set (mode : PyVal) (status : Int) :
    List PyVal × Except PyError Unit :=
  if ¬ isLinearAGCLockMode mode then
    ([], .error (.seekError .invalidParameterError))
  else nativeSetCall "cseekcamera_set_linear_agc_lock_mode" mode status

/-- `histeq_agc_gain_limit_factor_mode` setter (camera.py): isinstance
check, then `_clib.cseekcamera_set_histeq_agc_gain_limit_factor_mode` —
a name \_clib.py does not define, so the post-check path raises
`AttributeError`. -/
def histeq_agc_gain_limit_factor_mode_set (mode : PyVal) (status : Int) :
    List PyVal × Except PyError Unit :=
  if ¬ isGainLimitFactorMode mode then
    ([], .error (.seekError .invalidParameterError))
  else
    nativeSetCall "cseekcamera_set_histeq_agc_gain_limit_factor_mode"
      mode status

/-- `histeq_agc_plateau_redistribution_mode` setter (camera.py, lines
1455-1461): no isinstance check — the body goes straight to
`_clib.cseekcamera_set_histeq_agc_plateau_redistribution_mode`, a name
\_clib.py does not define, so every assignment raises `AttributeError`
at the module attribute lookup, before any native call. -/
def histeq_agc_plateau_redistribution_mode_set (mode : PyVal) (status : Int) :
    List PyVal × Except PyError Unit :=
  nativeSetCall "cseekcamera_set_histeq_agc_plateau_redistribution_mode"
    mode status

/-! ## Devices and chip-ID equality (`_clib.py`, `camera.py`)

A `CSeekCamera` wraps the opaque native handle (`self.pointer`); the chip
ID is not stored on the object but fetched through the native accessor
`seekcamera_get_chipid(camera.pointer, ...)` on every comparison.  The
native world is modelled by `NativeEnv`: the (deterministic) decoded
UTF-8 chip-ID string the accessor yields for each handle value.  UTF-8
decoding is a function of the 16 chip-ID bytes, so instances whose
accessors fill identical bytes receive identical strings here. -/

/-- The native layer's state, as far as chip-ID lookups are concerned:
for each handle value, the decoded chip-ID string that
`seekcamera_get_chipid` fills in (with status 0). -/
structure NativeEnv where
  chipid : Nat → String

/-- `CSeekCamera` (\_clib.py): holds the opaque native handle. -/
structure CSeekCamera where
  pointer : Nat
  deriving DecidableEq, Repr

/-- `CSeekCamera.__eq__` (\_clib.py): fetch both chip IDs through the
native accessor, decode, and compare the strings.  The native handles
themselves are never compared. -/
def CSeekCamera.beq (env : NativeEnv) (this other : CSeekCamera) : Bool :=
  env.chipid this.pointer == env.chipid other.pointer

/-- `SeekCamera` (camera.py): wraps the `CSeekCamera` of the C bindings. -/
structure SeekCamera where
  camera : CSeekCamera
  deriving DecidableEq, Repr

/-- `SeekCamera.__eq__` (camera.py): delegates to `CSeekCamera.__eq__`. -/
def SeekCamera.beq (env : NativeEnv) (this other : SeekCamera) : Bool :=
  CSeekCamera.beq env this.camera other.camera

/-! ## Manager event-callback bridge (`camera.py`)

`SeekCameraManager.register_event_callback` installs `_event_callback`,
which the native layer invokes per event with a camera handle, an event
type, and an event status.  The bridge mutates the manager's device list
`self._cameras` and invokes the single registered user callback.  The
user callback receives `(SeekCamera(camera), event, error, user_data)`
and may, through the manager, observe `self._cameras` as it stands at
that moment; each invocation is therefore recorded together with that
snapshot. -/

/-- `SeekCameraManagerEvent` (camera.py): CONNECT=0, DISCONNECT=1,
ERROR=2, READY_TO_PAIR=3. -/
inductive SeekCameraManagerEvent where
  | CONNECT
  | DISCONNECT
  | ERROR
  | READY_TO_PAIR
  deriving DecidableEq, Repr

/-- One invocation of the registered user event callback: the arguments it
was passed and the manager's device list at the moment of the call. -/
structure EventCallbackCall where
  camera : SeekCamera
  event : SeekCameraManagerEvent
  error : Option SeekErrorKind
  camerasAtCall : List CSeekCamera
  deriving Repr

/-- The body of `_event_callback` in
`SeekCameraManager.register_event_callback` (camera.py), for one native
event.  Input: the current device list `cameras` (`self._cameras`), the
camera handle, the event type, and the event status.  Output: the device
list after the handler returns, and the user-callback invocations it
performed (zero or one), each with its device-list snapshot.

* CONNECT: append the camera, then invoke the callback — the snapshot is
  the list that already includes the camera.
* DISCONNECT: invoke the callback on the pre-removal list, then
  `self._cameras.remove(camera)` — removal of the first element equal to
  `camera` under chip-ID `__eq__`, modelled by `List.eraseP`.
* ERROR: build `error_from_status(event_status)` (whose own
  invalid-parameter raise propagates, `Except.error`, when the status is
  not an error), pass it to the callback, and leave the list untouched.
* READY_TO_PAIR: same shape as CONNECT. -/
def managerHandleEvent (env : NativeEnv) (cameras : List CSeekCamera)
    (camera : CSeekCamera) (event_type : SeekCameraManagerEvent)
    (event_status : Int) :
    Except SeekErrorKind (List CSeekCamera × List EventCallbackCall) :=
  match event_type with
  | .CONNECT =>
      let cameras := cameras ++ [camera]
      .ok (cameras, [⟨⟨camera⟩, .CONNECT, none, cameras⟩])
  | .DISCONNECT =>
      .ok (cameras.eraseP (fun x => CSeekCamera.beq env x camera),
           [⟨⟨camera⟩, .DISCONNECT, none, cameras⟩])
  | .ERROR =>
      match error_from_status event_status with
      | .error e => .error e
      | .ok err => .ok (cameras, [⟨⟨camera⟩, .ERROR, some err, cameras⟩])
  | .READY_TO_PAIR =>
      let cameras := cameras ++ [camera]
      .ok (cameras, [⟨⟨camera⟩, .READY_TO_PAIR, none, cameras⟩])

/-- A scripted sequence of native events delivered one after the other to
the bridge (the native layer delivers events for one manager serially):
threads the device list through `managerHandleEvent` and accumulates the
user-callback invocations in delivery order. -/
def managerRunEvents (env : NativeEnv) (cameras : List CSeekCamera) :
    List (CSeekCamera × SeekCameraManagerEvent × Int) →
    Except SeekErrorKind (List CSeekCamera × List EventCallbackCall)
  | [] => .ok (cameras, [])
  | (camera, event_type, event_status) :: rest => do
      let (cameras, calls) ←
        managerHandleEvent env cameras camera event_type event_status
      let (final, moreCalls) ← managerRunEvents env cameras rest
      pure (final, calls ++ moreCalls)

/-- Whether the device list contains a device whose chip ID (read through
the native accessor) is `cid` — containment in the sense of the chip-ID
`__eq__`. -/
def containsChip (env : NativeEnv) (cameras : List CSeekCamera)
    (cid : String) : Bool :=
  cameras.any (fun x => env.chipid x.pointer == cid)

/-! ## The packed frame-header structure (`CSeekCameraFrameHeader`, \_clib.py)

The ctypes structure is declared with `_pack_ = 1`: every field sits at
the byte offset equal to the sum of the sizes of the fields before it, with
no compiler-inserted padding, and all multi-byte scalars are read
little-endian.  Byte buffers are `List Nat` (one entry per byte);
`c_char`/`c_uint8` arrays are kept as raw byte lists; `c_float` fields
carry their 32-bit little-endian bit pattern as a `Nat` (the claims are
about byte layout, not float arithmetic). -/

/-- Little-endian value of a byte list: the first byte is least
significant. -/
def leVal : List Nat → Nat
  | [] => 0
  | b :: rest => b + 256 * leVal rest

/-- The `n` little-endian bytes of a value. -/
def leBytes : Nat → Nat → List Nat
  | 0, _ => []
  | n + 1, v => v % 256 :: leBytes n (v / 256)

/-- The `n`-byte window of a buffer starting at byte offset `off`. -/
def slice (bs : List Nat) (off n : Nat) : List Nat :=
  (bs.drop off).take n

/-- Read the `n`-byte little-endian scalar at byte offset `off`. -/
def readLE (bs : List Nat) (off n : Nat) : Nat :=
  leVal (slice bs off n)

/-- `CSeekCameraFrameHeader` (\_clib.py): the 1-byte-packed frame header.
Scalar fields hold the decoded integer (for the `c_float` fields, the
32-bit bit pattern); `c_char`/`c_uint8` array fields hold their raw
bytes. -/
structure CSeekCameraFrameHeader where
  sentinel : Nat
  version : Nat
  type : Nat
  width : Nat
  height : Nat
  channels : Nat
  pixel_depth : Nat
  pixel_padding : Nat
  line_stride : Nat
  line_padding : Nat
  header_size : Nat
  timestamp_utc_ns : Nat
  chipid : List Nat
  serial_number : List Nat
  core_part_number : List Nat
  firmware_version : List Nat
  io_type : Nat
  fpa_frame_count : Nat
  fpa_diode_count : Nat
  environment_temperature : Nat
  thermography_min_x : Nat
  thermography_min_y : Nat
  thermography_min_value : Nat
  thermography_max_x : Nat
  thermography_max_y : Nat
  thermography_max_value : Nat
  thermography_spot_x : Nat
  thermography_spot_y : Nat
  thermography_spot_value : Nat
  reserved : List Nat
  deriving DecidableEq, Repr

/-- The `_fields_` list of `CSeekCameraFrameHeader`: each field's name and
its size in bytes (`c_uint32` 4, `c_uint8` 1, `c_uint16` 2, `c_uint64` 8,
`c_char * k` and `c_uint8 * k` are `k`, `c_float` 4), in declaration
order. -/
def frameHeaderFields : List (String × Nat) :=
  [ ("sentinel", 4), ("version", 1), ("type", 4), ("width", 2),
    ("height", 2), ("channels", 1), ("pixel_depth", 1),
    ("pixel_padding", 1), ("line_stride", 2), ("line_padding", 2),
    ("header_size", 2), ("timestamp_utc_ns", 8), ("chipid", 16),
    ("serial_number", 16), ("core_part_number", 32),
    ("firmware_version", 4), ("io_type", 1), ("fpa_frame_count", 4),
    ("fpa_diode_count", 4), ("environment_temperature", 4),
    ("thermography_min_x", 2), ("thermography_min_y", 2),
    ("thermography_min_value", 4), ("thermography_max_x", 2),
    ("thermography_max_y", 2), ("thermography_max_value", 4),
    ("thermography_spot_x", 2), ("thermography_spot_y", 2),
    ("thermography_spot_value", 4), ("reserved", 1913) ]

/-- Byte offset of a field under 1-byte packing: the sum of the sizes of
the fields declared before it. -/
def fieldOffsetAux : List (String × Nat) → String → Nat → Option Nat
  | [], _, _ => none
  | (n, s) :: rest, name, acc =>
      if n = name then some acc else fieldOffsetAux rest name (acc + s)

/-- Byte offset of a named field of the packed structure. -/
def fieldOffset (name : String) : Nat :=
  (fieldOffsetAux frameHeaderFields name 0).getD 0

/-- Total size in bytes of the packed structure: the sum of all field
sizes (1-byte packing inserts nothing between them). -/
def headerTotalSize : Nat :=
  (frameHeaderFields.map (fun f => f.2)).sum

/-- Combined size in bytes of the named (non-reserved) fields. -/
def namedFieldsSize : Nat :=
  ((frameHeaderFields.filter (fun f => f.1 ≠ "reserved")).map
    (fun f => f.2)).sum

/-- Serialise a header value to its packed little-endian byte image:
each field's bytes in declaration order, nothing between them. -/
def pack (h : CSeekCameraFrameHeader) : List Nat :=
  leBytes 4 h.sentinel ++ leBytes 1 h.version ++ leBytes 4 h.type ++
  leBytes 2 h.width ++ leBytes 2 h.height ++ leBytes 1 h.channels ++
  leBytes 1 h.pixel_depth ++ leBytes 1 h.pixel_padding ++
  leBytes 2 h.line_stride ++ leBytes 2 h.line_padding ++
  leBytes 2 h.header_size ++ leBytes 8 h.timestamp_utc_ns ++
  h.chipid ++ h.serial_number ++ h.core_part_number ++
  h.firmware_version ++ leBytes 1 h.io_type ++
  leBytes 4 h.fpa_frame_count ++ leBytes 4 h.fpa_diode_count ++
  leBytes 4 h.environment_temperature ++
  leBytes 2 h.thermography_min_x ++ leBytes 2 h.thermography_min_y ++
  leBytes 4 h.thermography_min_value ++
  leBytes 2 h.thermography_max_x ++ leBytes 2 h.thermography_max_y ++
  leBytes 4 h.thermography_max_value ++
  leBytes 2 h.thermography_spot_x ++ leBytes 2 h.thermography_spot_y ++
  leBytes 4 h.thermography_spot_value ++
  h.reserved

/-- Decode a packed byte buffer into a header value, every field read at
its fixed byte offset (little-endian scalars, raw byte arrays) — the
offsets are the 1-byte-packed cumulative sums of `frameHeaderFields`. -/
def decode (bs : List Nat) : CSeekCameraFrameHeader where
  sentinel := readLE bs 0 4
  version := readLE bs 4 1
  type := readLE bs 5 4
  width := readLE bs 9 2
  height := readLE bs 11 2
  channels := readLE bs 13 1
  pixel_depth := readLE bs 14 1
  pixel_padding := readLE bs 15 1
  line_stride := readLE bs 16 2
  line_padding := readLE bs 18 2
  header_size := readLE bs 20 2
  timestamp_utc_ns := readLE bs 22 8
  chipid := slice bs 30 16
  serial_number := slice bs 46 16
  core_part_number := slice bs 62 32
  firmware_version := slice bs 94 4
  io_type := readLE bs 98 1
  fpa_frame_count := readLE bs 99 4
  fpa_diode_count := readLE bs 103 4
  environment_temperature := readLE bs 107 4
  thermography_min_x := readLE bs 111 2
  thermography_min_y := readLE bs 113 2
  thermography_min_value := readLE bs 115 4
  thermography_max_x := readLE bs 119 2
  thermography_max_y := readLE bs 121 2
  thermography_max_value := readLE bs 123 4
  thermography_spot_x := readLE bs 127 2
  thermography_spot_y := readLE bs 129 2
  thermography_spot_value := readLE bs 131 4
  reserved := slice bs 135 1913

/-- A header value is well formed when every scalar fits the width of its
field (`256 ^ k` is the exclusive bound of a `k`-byte field) and every
byte-array field has its declared length. -/
def WFFrameHeader (h : CSeekCameraFrameHeader) : Prop :=
  h.sentinel < 256 ^ 4 ∧ h.version < 256 ^ 1 ∧ h.type < 256 ^ 4 ∧
  h.width < 256 ^ 2 ∧ h.height < 256 ^ 2 ∧ h.channels < 256 ^ 1 ∧
  h.pixel_depth < 256 ^ 1 ∧ h.pixel_padding < 256 ^ 1 ∧
  h.line_stride < 256 ^ 2 ∧ h.line_padding < 256 ^ 2 ∧
  h.header_size < 256 ^ 2 ∧ h.timestamp_utc_ns < 256 ^ 8 ∧
  h.chipid.length = 16 ∧ h.serial_number.length = 16 ∧
  h.core_part_number.length = 32 ∧ h.firmware_version.length = 4 ∧
  h.io_type < 256 ^ 1 ∧ h.fpa_frame_count < 256 ^ 4 ∧
  h.fpa_diode_count < 256 ^ 4 ∧ h.environment_temperature < 256 ^ 4 ∧
  h.thermography_min_x < 256 ^ 2 ∧ h.thermography_min_y < 256 ^ 2 ∧
  h.thermography_min_value < 256 ^ 4 ∧
  h.thermography_max_x < 256 ^ 2 ∧ h.thermography_max_y < 256 ^ 2 ∧
  h.thermography_max_value < 256 ^ 4 ∧
  h.thermography_spot_x < 256 ^ 2 ∧ h.thermography_spot_y < 256 ^ 2 ∧
  h.thermography_spot_value < 256 ^ 4 ∧
  h.reserved.length = 1913

/-- A value read from a field of the ctypes structure: scalar fields
yield integers, array fields their bytes. -/
inductive HeaderFieldValue where
  | scalar (v : Nat)
  | bytes (bs : List Nat)
  deriving DecidableEq, Repr

/-- Python attribute lookup on a `CSeekCameraFrameHeader` instance: a name
declared in `_fields_` yields that field's value; any other name raises
`AttributeError` (`none`) — ctypes structures have no fallback
`__getattr__`. -/
def CSeekCameraFrameHeader.getattr (h : CSeekCameraFrameHeader) :
    String → Option HeaderFieldValue
  | "sentinel" => some (.scalar h.sentinel)
  | "version" => some (.scalar h.version)
  | "type" => some (.scalar h.type)
  | "width" => some (.scalar h.width)
  | "height" => some (.scalar h.height)
  | "channels" => some (.scalar h.channels)
  | "pixel_depth" => some (.scalar h.pixel_depth)
  | "pixel_padding" => some (.scalar h.pixel_padding)
  | "line_stride" => some (.scalar h.line_stride)
  | "line_padding" => some (.scalar h.line_padding)
  | "header_size" => some (.scalar h.header_size)
  | "timestamp_utc_ns" => some (.scalar h.timestamp_utc_ns)
  | "chipid" => some (.bytes h.chipid)
  | "serial_number" => some (.bytes h.serial_number)
  | "core_part_number" => some (.bytes h.core_part_number)
  | "firmware_version" => some (.bytes h.firmware_version)
  | "io_type" => some (.scalar h.io_type)
  | "fpa_frame_count" => some (.scalar h.fpa_frame_count)
  | "fpa_diode_count" => some (.scalar h.fpa_diode_count)
  | "environment_temperature" => some (.scalar h.environment_temperature)
  | "thermography_min_x" => some (.scalar h.thermography_min_x)
  | "thermography_min_y" => some (.scalar h.thermography_min_y)
  | "thermography_min_value" => some (.scalar h.thermography_min_value)
  | "thermography_max_x" => some (.scalar h.thermography_max_x)
  | "thermography_max_y" => some (.scalar h.thermography_max_y)
  | "thermography_max_value" => some (.scalar h.thermography_max_value)
  | "thermography_spot_x" => some (.scalar h.thermography_spot_x)
  | "thermography_spot_y" => some (.scalar h.thermography_spot_y)
  | "thermography_spot_value" => some (.scalar h.thermography_spot_value)
  | "reserved" => some (.bytes h.reserved)
  | _ => none

/-- `SeekCameraFrameHeader` (camera.py): wraps the decoded ctypes header
(`self._header`). -/
structure SeekCameraFrameHeader where
  header : CSeekCameraFrameHeader

/-- The attribute access `self._header.<attr>` performed by a
`SeekCameraFrameHeader` property body, with the `AttributeError` of a
missing field made explicit. -/
def SeekCameraFrameHeader.headerAttr (self : SeekCameraFrameHeader)
    (attr : String) : Except PyError HeaderFieldValue :=
  match self.header.getattr attr with
  | some v => .ok v
  | none => .error .attributeError

/-- `SeekCameraFrameHeader.agc_mode` (camera.py): reads
`self._header.agc_mode`. -/
def SeekCameraFrameHeader.agc_mode (self : SeekCameraFrameHeader) :
    Except PyError HeaderFieldValue :=
  self.headerAttr "agc_mode"

/-- `SeekCameraFrameHeader.histeq_agc_num_bins` (camera.py): reads
`self._header.histeq_agc_num_bins`. -/
def SeekCameraFrameHeader.histeq_agc_num_bins
    (self : SeekCameraFrameHeader) : Except PyError HeaderFieldValue :=
  self.headerAttr "histeq_agc_num_bins"

/-- `SeekCameraFrameHeader.histeq_agc_bin_width` (camera.py): reads
`self._header.histeq_agc_bin_width`. -/
def SeekCameraFrameHeader.histeq_agc_bin_width
    (self : SeekCameraFrameHeader) : Except PyError HeaderFieldValue :=
  self.headerAttr "histeq_agc_bin_width"

/-- `SeekCameraFrameHeader.histeq_agc_gain_limit_factor` (camera.py):
reads `self._header.histeq_agc_gain_limit_factor`. -/
def SeekCameraFrameHeader.histeq_agc_gain_limit_factor
    (self : SeekCameraFrameHeader) : Except PyError HeaderFieldValue :=
  self.headerAttr "histeq_agc_gain_limit_factor"

/-- `SeekCameraFrameHeader.linear_agc_min` (camera.py): reads
`self._header.linear_agc_min`. -/
def SeekCameraFrameHeader.linear_agc_min (self : SeekCameraFrameHeader) :
    Except PyError HeaderFieldValue :=
  self.headerAttr "linear_agc_min"

/-- `SeekCameraFrameHeader.linear_agc_max` (camera.py): reads
`self._header.linear_agc_max`. -/
def SeekCameraFrameHeader.linear_agc_max (self : SeekCameraFrameHeader) :
    Except PyError HeaderFieldValue :=
  self.headerAttr "linear_agc_max"

/-- `SeekCameraFrameHeader.gradient_correction_filter_state` (camera.py):
reads `self._header.gradient_correction_filter_state`. -/
def SeekCameraFrameHeader.gradient_correction_filter_state
    (self : SeekCameraFrameHeader) : Except PyError HeaderFieldValue :=
  self.headerAttr "gradient_correction_filter_state"

/-- `SeekCameraFrameHeader.flat_scene_correction_filter_state`
(camera.py): reads
`self._header.flat_scene_correction_filter_state`. -/
def SeekCameraFrameHeader.flat_scene_correction_filter_state
    (self : SeekCameraFrameHeader) : Except PyError HeaderFieldValue :=
  self.headerAttr "flat_scene_correction_filter_state"

/-- The eight attribute names the documented frame-header properties read
but `_fields_` does not declare. -/
def phantomHeaderAttrs : List String :=
  [ "agc_mode", "histeq_agc_num_bins", "histeq_agc_bin_width",
    "histeq_agc_gain_limit_factor", "linear_agc_min", "linear_agc_max",
    "gradient_correction_filter_state",
    "flat_scene_correction_filter_state" ]

/-- A concrete well-formed header whose width field holds 1920. -/
def h1920 : CSeekCameraFrameHeader where
  sentinel := 3735928559
  version := 1
  type := 64
  width := 1920
  height := 1080
  channels := 1
  pixel_depth := 8
  pixel_padding := 0
  line_stride := 1920
  line_padding := 0
  header_size := 2048
  timestamp_utc_ns := 1700000000000000000
  chipid := List.replicate 16 65
  serial_number := List.replicate 16 66
  core_part_number := List.replicate 32 67
  firmware_version := [1, 2, 3, 4]
  io_type := 1
  fpa_frame_count := 42
  fpa_diode_count := 7
  environment_temperature := 1103626240
  thermography_min_x := 0
  thermography_min_y := 1
  thermography_min_value := 1
  thermography_max_x := 2
  thermography_max_y := 3
  thermography_max_value := 2
  thermography_spot_x := 4
  thermography_spot_y := 5
  thermography_spot_value := 3
  reserved := List.replicate 1913 0

/-! ## Frames and the typed pixel view (`camera.py`)

`SeekFrame` wraps a native frame handle plus an optional format tag.  The
geometry properties (`width`, `height`, `line_stride`, ...) are plain
native getter calls; `CSeekFrame` below records the values those getters
report.  `SeekFrame.data` casts the native pixel pointer to an element
type and wraps it with `np.ctypeslib.as_array(ptr, shape)`, which yields a
C-contiguous (tightly packed) numpy view: the element at index
`(i, j, ...)` lives at byte offset `itemsize * (row-major flat index)`
from the pixel buffer's start, so row `n` starts at
`n * itemsize * (product of the trailing shape dimensions)`. -/

/-- `SeekCameraFrameFormat` (camera.py): the nine output frame formats
(bit-flag values CORRECTED=0x04 ... COLOR_YUY2=0x400). -/
inductive SeekCameraFrameFormat where
  | CORRECTED
  | PRE_AGC
  | THERMOGRAPHY_FLOAT
  | THERMOGRAPHY_FIXED_10_6
  | GRAYSCALE
  | COLOR_ARGB8888
  | COLOR_RGB565
  | COLOR_AYUV
  | COLOR_YUY2
  deriving DecidableEq, Repr

/-- What the native `seekframe_get_*` accessors report for one frame
handle (each `SeekFrame` geometry property is one such call). -/
structure CSeekFrame where
  width : Nat
  height : Nat
  channels : Nat
  pixel_depth : Nat
  pixel_padding : Nat
  line_stride : Nat
  line_padding : Nat
  data_size : Nat
  is_empty : Bool
  deriving DecidableEq, Repr

/-- `SeekFrame` (camera.py): a native frame handle and the format tag it
was constructed with (`None` when built without a format). -/
structure SeekFrame where
  frame : CSeekFrame
  format : Option SeekCameraFrameFormat
  deriving DecidableEq, Repr

/-- The ctypes element types `SeekFrame.data` casts to. -/
inductive NumpyDtype where
  | uint8 | uint16 | float32
  deriving DecidableEq, Repr

/-- Size in bytes of one element of each ctypes element type. -/
def NumpyDtype.itemsize : NumpyDtype → Nat
  | .uint8 => 1
  | .uint16 => 2
  | .float32 => 4

/-- `SeekFrame.data` (camera.py): raises the invalid-parameter error when
no format tag is set; otherwise casts the pixel pointer to the branch's
element type and shapes it as the branch dictates.  The view is fully
described by its element type and shape (the buffer is referenced, not
copied); both are returned here.  All nine enumeration members have a
branch, so the trailing `return None` of the Python code is unreachable. -/
def SeekFrame.data (f : SeekFrame) :
    Except PyError (NumpyDtype × List Nat) :=
  match f.format with
  | none => .error (.seekError .invalidParameterError)
  | some .CORRECTED => .ok (.uint16, [f.frame.height, f.frame.width])
  | some .PRE_AGC => .ok (.uint16, [f.frame.height, f.frame.width])
  | some .GRAYSCALE => .ok (.uint8, [f.frame.height, f.frame.width])
  | some .THERMOGRAPHY_FLOAT => .ok (.float32, [f.frame.height, f.frame.width])
  | some .THERMOGRAPHY_FIXED_10_6 => .ok (.uint16, [f.frame.height, f.frame.width])
  | some .COLOR_ARGB8888 => .ok (.uint8, [f.frame.height, f.frame.width, 4])
  | some .COLOR_RGB565 => .ok (.uint16, [f.frame.height, f.frame.width])
  | some .COLOR_AYUV => .ok (.uint8, [f.frame.height, f.frame.width, 4])
  | some .COLOR_YUY2 => .ok (.uint8, [f.frame.height, f.frame.width, 2])

/-- Byte offset, from the start of the native pixel buffer, at which the
view returned by `SeekFrame.data` places the first pixel of row `n`: the
C-contiguous layout of `np.ctypeslib.as_array(ptr, shape)` puts it at
`n * itemsize * (product of the trailing shape dimensions)`.  `none` when
`data` raises. -/
def SeekFrame.dataRowByteOffset (f : SeekFrame) (n : Nat) : Option Nat :=
  match f.data with
  | .ok (dtype, shape) => some (n * (shape.drop 1).prod * dtype.itemsize)
  | .error _ => none

/-- The per-pixel component count of each `SeekFrame.data` branch: the
third shape dimension of the 3-D views, 1 for the 2-D views. -/
def viewChannels : SeekCameraFrameFormat → Nat
  | .COLOR_ARGB8888 => 4
  | .COLOR_AYUV => 4
  | .COLOR_YUY2 => 2
  | _ => 1

/-- The element type of each `SeekFrame.data` branch. -/
def viewDtype : SeekCameraFrameFormat → NumpyDtype
  | .CORRECTED => .uint16
  | .PRE_AGC => .uint16
  | .GRAYSCALE => .uint8
  | .THERMOGRAPHY_FLOAT => .float32
  | .THERMOGRAPHY_FIXED_10_6 => .uint16
  | .COLOR_ARGB8888 => .uint8
  | .COLOR_RGB565 => .uint16
  | .COLOR_AYUV => .uint8
  | .COLOR_YUY2 => .uint8

/-- Modelled from the spec: the element type the documented table of
§4.2/§6 prescribes for each frame format. -/
def specViewDtype : SeekCameraFrameFormat → NumpyDtype
  | .GRAYSCALE => .uint8
  | .CORRECTED => .uint16
  | .PRE_AGC => .uint16
  | .THERMOGRAPHY_FIXED_10_6 => .uint16
  | .THERMOGRAPHY_FLOAT => .float32
  | .COLOR_ARGB8888 => .uint8
  | .COLOR_AYUV => .uint8
  | .COLOR_RGB565 => .uint16
  | .COLOR_YUY2 => .uint8

/-- Modelled from the spec: the shape the documented table of §4.2/§6
prescribes — `(height, width)` for the 2-D formats, `(height, width, 4)`
for ARGB8888/AYUV, `(height, width, 2)` for YUY2. -/
def specViewShape (fmt : SeekCameraFrameFormat) (height width : Nat) :
    List Nat :=
  match fmt with
  | .COLOR_ARGB8888 => [height, width, 4]
  | .COLOR_AYUV => [height, width, 4]
  | .COLOR_YUY2 => [height, width, 2]
  | _ => [height, width]

/-- A 320x240 ARGB8888 frame (tightly packed geometry). -/
def argbFrame : SeekFrame :=
  ⟨⟨320, 240, 4, 8, 0, 1280, 0, 307200, false⟩, some .COLOR_ARGB8888⟩

/-- A 2x2 grayscale frame whose rows are padded: one byte per pixel, two
pixels per row, but a line stride of 4 bytes (2 bytes of line padding). -/
def paddedGrayFrame : SeekFrame :=
  ⟨⟨2, 2, 1, 8, 0, 4, 2, 8, false⟩, some .GRAYSCALE⟩

/-- A subclass accepts a status only if that status is one of the documented
taxonomy codes. -/
theorem exception_for_mem_mappedStatusCodes
    (cls : SeekErrorKind) (status : Int)
    (h : exception_for cls status = true) :
    status ∈ mappedStatusCodes := by
  cases cls <;> simp [exception_for] at h <;> subst h <;> decide

/-- For a status that is an error, `error_from_status` returns (does not
raise), and the class it returns is `raise_from_status`. -/
theorem error_from_status_of_ne_zero (status : Int) (h : status ≠ 0) :
    error_from_status status = .ok (raise_from_status status) := by
  have hie : is_error status = true := by simp [is_error, h]
  unfold raise_from_status error_from_status
  rw [hie]
  cases subclasses.find? (fun cls => exception_for cls status) <;> rfl

/-! ## Theorems for the device-equality and event-bridge claims -/

/-- C2: `SeekCamera` equality holds exactly when the chip-ID strings read
through the native accessor coincide; in particular two instances built
from different native handles compare equal whenever their chip IDs
agree, so equality is never decided by handle identity. -/
theorem device_equality_is_chipid_equality :
    (∀ (env : NativeEnv) (a b : SeekCamera),
      SeekCamera.beq env a b = true ↔
        env.chipid a.camera.pointer = env.chipid b.camera.pointer) ∧
    (∀ (env : NativeEnv) (p q : Nat), p ≠ q →
      env.chipid p = env.chipid q →
      SeekCamera.beq env ⟨⟨p⟩⟩ ⟨⟨q⟩⟩ = true) := by
  constructor
  · intro env a b
    simp [SeekCamera.beq, CSeekCamera.beq]
  · intro env p q _ h
    simp [SeekCamera.beq, CSeekCamera.beq, h]

/-- C2 witness: two devices on distinct handles 1 and 2 whose accessor
reports the same chip ID compare equal. -/
theorem device_equality_is_chipid_equality_witness :
    SeekCamera.beq ⟨fun _ => "ABC123"⟩ ⟨⟨1⟩⟩ ⟨⟨2⟩⟩ = true :=
  device_equality_is_chipid_equality.2 ⟨fun _ => "ABC123"⟩ 1 2
    (by decide) rfl

/-- C1: delivering CONNECT then DISCONNECT for one chip ID (two handles,
both reading back that chip ID, the chip ID not yet in the list) invokes
the user callback exactly twice; the device list snapshot seen by each
callback body contains the chip ID, and the list after the handler of
DISCONNECT returns does not. -/
theorem connect_disconnect_ordering
    (env : NativeEnv) (cameras : List CSeekCamera) (a b : CSeekCamera)
    (cid : String)
    (ha : env.chipid a.pointer = cid) (hb : env.chipid b.pointer = cid)
    (hfresh : containsChip env cameras cid = false) :
    ∃ (finalCameras : List CSeekCamera) (calls : List EventCallbackCall),
      managerRunEvents env cameras
          [(a, .CONNECT, 0), (b, .DISCONNECT, 0)] =
        .ok (finalCameras, calls) ∧
      calls.length = 2 ∧
      (∀ call ∈ calls, containsChip env call.camerasAtCall cid = true) ∧
      containsChip env finalCameras cid = false := by
  have hnone : ∀ x ∈ cameras, ¬ env.chipid x.pointer = cid := by
    simpa [containsChip] using hfresh
  have herase :
      (cameras ++ [a]).eraseP (fun x => CSeekCamera.beq env x b) = cameras := by
    rw [List.eraseP_append_right]
    · have : CSeekCamera.beq env a b = true := by
        simp [CSeekCamera.beq, ha, hb]
      simp [List.eraseP_cons, this]
    · intro x hx
      simp only [CSeekCamera.beq, hb, beq_iff_eq]
      exact hnone x hx
  refine ⟨cameras,
    [⟨⟨a⟩, .CONNECT, none, cameras ++ [a]⟩,
     ⟨⟨b⟩, .DISCONNECT, none, cameras ++ [a]⟩], ?_, rfl, ?_, hfresh⟩
  · simp [managerRunEvents, managerHandleEvent, herase, Bind.bind, Except.bind,
      Pure.pure, Except.pure]
  · intro call hcall
    have hmem : containsChip env (cameras ++ [a]) cid = true := by
      simp [containsChip, ha]
    simp only [List.mem_cons, List.not_mem_nil, or_false] at hcall
    rcases hcall with h | h
    · simp [h, hmem]
    · simp [h, hmem]

/-- C1 witness: the ordering theorem run from an empty device list with
chip ID "ABC123" on handles 1 and 2. -/
theorem connect_disconnect_ordering_witness :
    ∃ (finalCameras : List CSeekCamera) (calls : List EventCallbackCall),
      managerRunEvents ⟨fun _ => "ABC123"⟩ []
          [(⟨1⟩, .CONNECT, 0), (⟨2⟩, .DISCONNECT, 0)] =
        .ok (finalCameras, calls) ∧
      calls.length = 2 ∧
      (∀ call ∈ calls,
        containsChip ⟨fun _ => "ABC123"⟩ call.camerasAtCall "ABC123" = true) ∧
      containsChip ⟨fun _ => "ABC123"⟩ finalCameras "ABC123" = false :=
  connect_disconnect_ordering ⟨fun _ => "ABC123"⟩ [] ⟨1⟩ ⟨2⟩ "ABC123"
    rfl rfl rfl

/-- C9: an ERROR event with an error status leaves the device list exactly
as it was (the device stays present) and invokes the user callback once,
passing it the typed error object `error_from_status` built from the
native status. -/
theorem error_event_preserves_device_list
    (env : NativeEnv) (cameras : List CSeekCamera) (camera : CSeekCamera)
    (status : Int) (h : status ≠ 0) :
    managerHandleEvent env cameras camera .ERROR status =
      .ok (cameras,
        [⟨⟨camera⟩, .ERROR, some (raise_from_status status), cameras⟩]) := by
  simp [managerHandleEvent, error_from_status_of_ne_zero status h]

/-- C9 witness: an ERROR event with status -5 on a one-device list keeps
the device and hands the callback the device-not-found error object. -/
theorem error_event_preserves_device_list_witness :
    managerHandleEvent ⟨fun _ => "ABC123"⟩ [⟨5⟩] ⟨5⟩ .ERROR (-5) =
      .ok ([⟨5⟩],
        [⟨⟨⟨5⟩⟩, .ERROR, some (raise_from_status (-5)), [⟨5⟩]⟩]) :=
  error_event_preserves_device_list ⟨fun _ => "ABC123"⟩ [⟨5⟩] ⟨5⟩ (-5)
    (by decide)

/-- `leBytes` produces exactly `n` bytes. -/
@[simp] theorem leBytes_length (n v : Nat) : (leBytes n v).length = n := by
  induction n generalizing v with
  | zero => rfl
  | succ n ih => simp [leBytes, ih]

/-- Little-endian decoding inverts little-endian encoding of any value
that fits in the width. -/
theorem leVal_leBytes (n v : Nat) (h : v < 256 ^ n) :
    leVal (leBytes n v) = v := by
  induction n generalizing v with
  | zero => simp [leBytes, leVal]; omega
  | succ n ih =>
      have hdiv : v / 256 < 256 ^ n := by
        rw [Nat.div_lt_iff_lt_mul (by norm_num)]
        calc v < 256 ^ (n + 1) := h
        _ = 256 ^ n * 256 := by rw [Nat.pow_succ]
      simp [leBytes, leVal, ih (v / 256) hdiv]
      omega

/-- A window lying inside the left part of an append reads from the left
part. -/
theorem slice_append_left (xs ys : List Nat) (off n : Nat)
    (h : off + n ≤ xs.length) :
    slice (xs ++ ys) off n = slice xs off n := by
  simp only [slice, List.drop_append_eq_append_drop,
    List.take_append_eq_append_take]
  have h1 : off - xs.length = 0 := by omega
  have h2 : n - (xs.drop off).length = 0 := by
    simp only [List.length_drop]; omega
  simp [h1, h2]
  exact Or.inl (by omega)

/-- A window past the left part of an append reads from the right part at
the shifted offset. -/
theorem slice_append_skip (xs ys : List Nat) (off n : Nat)
    (h : xs.length ≤ off) :
    slice (xs ++ ys) off n = slice ys (off - xs.length) n := by
  have hnil : xs.drop off = [] := List.drop_eq_nil_of_le h
  simp [slice, List.drop_append_eq_append_drop, hnil]

/-- A window covering a whole buffer reads the buffer. -/
theorem slice_all (xs : List Nat) (n : Nat) (h : xs.length = n) :
    slice xs 0 n = xs := by
  subst h
  simp [slice]

/-- The packed image of a well-formed header is exactly 2048 bytes. -/
theorem pack_length (h : CSeekCameraFrameHeader) (hwf : WFFrameHeader h) :
    (pack h).length = 2048 := by
  obtain ⟨-, -, -, -, -, -, -, -, -, -, -, -, hcid, hsn, hcpn, hfw, -, -,
    -, -, -, -, -, -, -, -, -, -, -, hres⟩ := hwf
  simp [pack, hcid, hsn, hcpn, hfw, hres]

/-- Decoding inverts packing on well-formed headers: every field
round-trips exactly. -/
theorem decode_pack (h : CSeekCameraFrameHeader) (hwf : WFFrameHeader h) :
    decode (pack h) = h := by
  obtain ⟨sen, ver, ty, w, ht, ch, pdep, ppad, lstr, lpad, hsz, ts, cid,
    sn, cpn, fw, io, ffc, fdc, et, ax, ay, av, bx, byv, bv, cx, cy, cv,
    res⟩ := h
  obtain ⟨h1, h2, h3, h4, h5, h6, h7, h8, h9, h10, h11, h12, hcid, hsn,
    hcpn, hfw, h17, h18, h19, h20, h21, h22, h23, h24, h25, h26, h27,
    h28, h29, hres⟩ := hwf
  have hcid' : cid.length = 16 := hcid
  have hsn' : sn.length = 16 := hsn
  have hcpn' : cpn.length = 32 := hcpn
  have hfw' : fw.length = 4 := hfw
  have hres' : res.length = 1913 := hres
  simp [decode, readLE, pack, slice_append_left, slice_append_skip,
    slice_all, hcid', hsn', hcpn', hfw', hres']
  repeat' apply And.intro
  all_goals exact leVal_leBytes _ _ (by assumption)

/-! ## Theorems for the header-layout claims -/

/-- C3: the packed header layout.  The field sizes of `_fields_` under
1-byte packing total exactly 2048 bytes — 135 bytes of named fields plus
the 1913-byte reserved region; every field sits at its documented
little-endian offset (sentinel 0, version 4, type 5, width 9, and so on
through the thermography triples at 111-134 and reserved at 135); a
buffer whose bytes 9..10 encode 1920 little-endian decodes to width 1920;
and on every well-formed header value, decoding the 2048-byte packed
image round-trips every field exactly. -/
theorem frame_header_packed_layout_roundtrip :
    (headerTotalSize = 2048 ∧ namedFieldsSize = 135 ∧
      headerTotalSize - namedFieldsSize = 1913) ∧
    (fieldOffset "sentinel" = 0 ∧ fieldOffset "version" = 4 ∧
      fieldOffset "type" = 5 ∧ fieldOffset "width" = 9 ∧
      fieldOffset "height" = 11 ∧ fieldOffset "channels" = 13 ∧
      fieldOffset "pixel_depth" = 14 ∧ fieldOffset "pixel_padding" = 15 ∧
      fieldOffset "line_stride" = 16 ∧ fieldOffset "line_padding" = 18 ∧
      fieldOffset "header_size" = 20 ∧
      fieldOffset "timestamp_utc_ns" = 22 ∧ fieldOffset "chipid" = 30 ∧
      fieldOffset "serial_number" = 46 ∧
      fieldOffset "core_part_number" = 62 ∧
      fieldOffset "firmware_version" = 94 ∧ fieldOffset "io_type" = 98 ∧
      fieldOffset "fpa_frame_count" = 99 ∧
      fieldOffset "fpa_diode_count" = 103 ∧
      fieldOffset "environment_temperature" = 107 ∧
      fieldOffset "thermography_min_x" = 111 ∧
      fieldOffset "thermography_min_y" = 113 ∧
      fieldOffset "thermography_min_value" = 115 ∧
      fieldOffset "thermography_max_x" = 119 ∧
      fieldOffset "thermography_max_y" = 121 ∧
      fieldOffset "thermography_max_value" = 123 ∧
      fieldOffset "thermography_spot_x" = 127 ∧
      fieldOffset "thermography_spot_y" = 129 ∧
      fieldOffset "thermography_spot_value" = 131 ∧
      fieldOffset "reserved" = 135) ∧
    (∀ bs : List Nat, slice bs 9 2 = [128, 7] → (decode bs).width = 1920) ∧
    (∀ h : CSeekCameraFrameHeader, WFFrameHeader h →
      (pack h).length = 2048 ∧ decode (pack h) = h) := by
  refine ⟨by decide, by decide, fun bs hb => ?_,
    fun h hwf => ⟨pack_length h hwf, decode_pack h hwf⟩⟩
  simp [decode, readLE, hb, leVal]

/-- The concrete header `h1920` is well formed: each scalar fits its
field width and each byte array has its declared length. -/
theorem h1920_wf : WFFrameHeader h1920 := by
  refine ⟨?_, ?_, ?_, ?_, ?_, ?_, ?_, ?_, ?_, ?_, ?_, ?_, ?_, ?_, ?_,
    ?_, ?_, ?_, ?_, ?_, ?_, ?_, ?_, ?_, ?_, ?_, ?_, ?_, ?_, ?_⟩ <;>
    simp only [h1920, List.length_replicate] <;> norm_num

/-- C3 witness: the layout theorem's round-trip applied to the concrete
header `h1920` (width 1920). -/
theorem frame_header_packed_layout_roundtrip_witness :
    WFFrameHeader h1920 ∧
      ((pack h1920).length = 2048 ∧ decode (pack h1920) = h1920) :=
  ⟨h1920_wf, frame_header_packed_layout_roundtrip.2.2.2 h1920 h1920_wf⟩

/-- C10: the eight documented frame-header properties `agc_mode`,
`histeq_agc_num_bins`, `histeq_agc_bin_width`,
`histeq_agc_gain_limit_factor`, `linear_agc_min`, `linear_agc_max`,
`gradient_correction_filter_state` and
`flat_scene_correction_filter_state` never return a value on any header:
each read raises `AttributeError`, because none of those names is a field
of the packed 2048-byte structure. -/
theorem frame_header_agc_properties_always_raise
    (self : SeekCameraFrameHeader) :
    (∀ name ∈ phantomHeaderAttrs,
      ¬ name ∈ frameHeaderFields.map (fun f => f.1)) ∧
    self.agc_mode = .error .attributeError ∧
    self.histeq_agc_num_bins = .error .attributeError ∧
    self.histeq_agc_bin_width = .error .attributeError ∧
    self.histeq_agc_gain_limit_factor = .error .attributeError ∧
    self.linear_agc_min = .error .attributeError ∧
    self.linear_agc_max = .error .attributeError ∧
    self.gradient_correction_filter_state = .error .attributeError ∧
    self.flat_scene_correction_filter_state = .error .attributeError :=
  ⟨by decide, rfl, rfl, rfl, rfl, rfl, rfl, rfl, rfl⟩

/-! ## Theorems for the frame-view claims -/

/-- C4 counterexample: on the padded grayscale frame, whose line stride
(4) exceeds width x pixel-size (2 x 1), the view built by
`SeekFrame.data` places row 1 at byte offset 2 — N x (width x
pixel-size) — not at byte offset 1 x line_stride = 4. -/
theorem data_view_ignores_line_stride :
    paddedGrayFrame.frame.line_stride >
      paddedGrayFrame.frame.width * NumpyDtype.uint8.itemsize ∧
    paddedGrayFrame.dataRowByteOffset 1 = some 2 ∧
    ¬ paddedGrayFrame.dataRowByteOffset 1 =
        some (1 * paddedGrayFrame.frame.line_stride) := by
  decide

/-- C4 (amended): the view returned by `SeekFrame.data` is tightly
packed and does not respect `line_stride`: for every frame with a format
tag, the pixels of row N begin at byte offset
N x width x channels x itemsize from the start of the pixel buffer, a
value independent of `line_stride` (changing the stride reported by the
native layer leaves every row offset unchanged). -/
theorem data_view_row_offsets_are_tightly_packed
    (f : SeekFrame) (fmt : SeekCameraFrameFormat) (n stride : Nat)
    (h : f.format = some fmt) :
    f.dataRowByteOffset n =
      some (n * f.frame.width * viewChannels fmt * (viewDtype fmt).itemsize) ∧
    SeekFrame.dataRowByteOffset
        ⟨{ f.frame with line_stride := stride }, f.format⟩ n =
      f.dataRowByteOffset n := by
  cases fmt <;>
    simp [SeekFrame.dataRowByteOffset, SeekFrame.data, h, viewChannels,
      viewDtype, NumpyDtype.itemsize, Nat.mul_assoc, Nat.mul_comm,
      Nat.mul_left_comm]

/-- C4 witness: the tight-packing theorem applied to the padded grayscale
frame at row 1 with stride 4. -/
theorem data_view_row_offsets_are_tightly_packed_witness :
    paddedGrayFrame.dataRowByteOffset 1 =
      some (1 * paddedGrayFrame.frame.width *
        viewChannels .GRAYSCALE * (viewDtype .GRAYSCALE).itemsize) ∧
    SeekFrame.dataRowByteOffset
        ⟨{ paddedGrayFrame.frame with line_stride := 4 },
          paddedGrayFrame.format⟩ 1 =
      paddedGrayFrame.dataRowByteOffset 1 :=
  data_view_row_offsets_are_tightly_packed paddedGrayFrame .GRAYSCALE 1 4 rfl

/-- C5: for every frame with a format tag set, `SeekFrame.data` succeeds
and returns exactly the element type and shape of the documented table —
uint8 `(height, width)` for grayscale; uint16 `(height, width)` for
corrected, pre-AGC, fixed-point thermography and packed RGB565; float32
`(height, width)` for thermography-float; uint8 `(height, width, 4)` for
ARGB8888 and AYUV; uint8 `(height, width, 2)` for YUY2. -/
theorem data_view_matches_documented_table
    (f : SeekFrame) (fmt : SeekCameraFrameFormat) (h : f.format = some fmt) :
    f.data = .ok (specViewDtype fmt,
      specViewShape fmt f.frame.height f.frame.width) := by
  cases fmt <;> simp [SeekFrame.data, h, specViewDtype, specViewShape]

/-- C5 witness: an ARGB8888 frame of 320x240 yields a `(240, 320, 4)`
uint8 view. -/
theorem data_view_matches_documented_table_witness :
    argbFrame.data = .ok (.uint8, [240, 320, 4]) := by
  have := data_view_matches_documented_table argbFrame .COLOR_ARGB8888 rfl
  simpa [argbFrame, specViewDtype, specViewShape] using this

/-! ## Theorems for the setter-validation claim -/

/-- C6 counterexample: assigning the raw integer 2 (not an instance of
`SeekCameraHistEQAGCPlateauRedistributionMode`) to the HistEQ
plateau-redistribution-mode setter does not raise the invalid-parameter
error: the setter has no isinstance check, and its body's lookup of the
wrapper `cseekcamera_set_histeq_agc_plateau_redistribution_mode` — a
name \_clib.py does not define — raises `AttributeError` (before any
native call, none being recorded). -/
theorem plateau_redistribution_setter_skips_validation :
    isPlateauRedistributionMode (.intVal 2) = false ∧
    histeq_agc_plateau_redistribution_mode_set (.intVal 2) 0 =
      ([], .error .attributeError) ∧
    PyError.attributeError ≠ .seekError .invalidParameterError := by
  decide

/-- C6 (amended): for the six enumerated setters that do validate — color
palette, AGC mode, shutter mode, temperature unit, linear AGC lock mode
and HistEQ gain-limit-factor mode — assigning a value that is not an
instance of the required enumerated type raises the invalid-parameter
error before any native call is made (the recorded native-call list is
empty).  The seventh enumerated setter, HistEQ
plateau-redistribution-mode, performs no validation at all: every
assignment to it raises `AttributeError` at the lookup of its missing
\_clib wrapper, again before any native call. -/
theorem enumerated_setters_validate_before_native_call :
    (∀ (v : PyVal) (status : Int), isColorPalette v = false →
      color_palette_set v status =
        ([], .error (.seekError .invalidParameterError))) ∧
    (∀ (v : PyVal) (status : Int), isAGCMode v = false →
      agc_mode_set v status =
        ([], .error (.seekError .invalidParameterError))) ∧
    (∀ (v : PyVal) (status : Int), isShutterMode v = false →
      shutter_mode_set v status =
        ([], .error (.seekError .invalidParameterError))) ∧
    (∀ (v : PyVal) (status : Int), isTemperatureUnit v = false →
      temperature_unit_set v status =
        ([], .error (.seekError .invalidParameterError))) ∧
    (∀ (v : PyVal) (status : Int), isLinearAGCLockMode v = false →
      linear_agc_lock_mode_set v status =
        ([], .error (.seekError .invalidParameterError))) ∧
    (∀ (v : PyVal) (status : Int), isGainLimitFactorMode v = false →
      histeq_agc_gain_limit_factor_mode_set v status =
        ([], .error (.seekError .invalidParameterError))) ∧
    (∀ (v : PyVal) (status : Int),
      histeq_agc_plateau_redistribution_mode_set v status =
        ([], .error .attributeError)) := by
  have hplateau : ∀ (v : PyVal) (status : Int),
      histeq_agc_plateau_redistribution_mode_set v status =
        ([], .error .attributeError) := by
    intro v status
    simp only [histeq_agc_plateau_redistribution_mode_set, nativeSetCall]
    rw [if_neg (by decide)]
  refine ⟨?_, ?_, ?_, ?_, ?_, ?_, hplateau⟩ <;>
    · intro v status h
      simp [color_palette_set, agc_mode_set, shutter_mode_set,
        temperature_unit_set, linear_agc_lock_mode_set,
        histeq_agc_gain_limit_factor_mode_set, h]

/-- C6 witness: each of the six validating setters rejects the raw
integer 3 without recording a native call, and the plateau setter
raises `AttributeError` on the same input. -/
theorem enumerated_setters_validate_before_native_call_witness :
    color_palette_set (.intVal 3) 0 =
      ([], .error (.seekError .invalidParameterError)) ∧
    agc_mode_set (.intVal 3) 0 =
      ([], .error (.seekError .invalidParameterError)) ∧
    shutter_mode_set (.intVal 3) 0 =
      ([], .error (.seekError .invalidParameterError)) ∧
    temperature_unit_set (.intVal 3) 0 =
      ([], .error (.seekError .invalidParameterError)) ∧
    linear_agc_lock_mode_set (.intVal 3) 0 =
      ([], .error (.seekError .invalidParameterError)) ∧
    histeq_agc_gain_limit_factor_mode_set (.intVal 3) 0 =
      ([], .error (.seekError .invalidParameterError)) ∧
    histeq_agc_plateau_redistribution_mode_set (.intVal 3) 0 =
      ([], .error .attributeError) :=
  ⟨enumerated_setters_validate_before_native_call.1 _ _ rfl,
   enumerated_setters_validate_before_native_call.2.1 _ _ rfl,
   enumerated_setters_validate_before_native_call.2.2.1 _ _ rfl,
   enumerated_setters_validate_before_native_call.2.2.2.1 _ _ rfl,
   enumerated_setters_validate_before_native_call.2.2.2.2.1 _ _ rfl,
   enumerated_setters_validate_before_native_call.2.2.2.2.2.1 _ _ rfl,
   enumerated_setters_validate_before_native_call.2.2.2.2.2.2 _ 0⟩

/-! ## Theorems for the error-translation claims -/

/-- C7: a native status of -7 translates to the Timeout error class and to
no other class: `_exception_for` of a class accepts -7 only if the class is
`SeekCameraTimeoutError`, `raise error_from_status(-7)` raises exactly the
Timeout class, and the `color_palette` getter over a native call that
returned -7 raises the Timeout class whatever the output integer held. -/
theorem status_neg7_raises_timeout_only :
    (∀ cls : SeekErrorKind, exception_for cls (-7) = true → cls = .timeoutError) ∧
    raise_from_status (-7) = .timeoutError ∧
    ∀ palette : Int,
      color_palette_get palette (-7) = .error (.seekError .timeoutError) := by
  refine ⟨by decide, by decide, fun palette => ?_⟩
  rfl

/-- C8 counterexample: the non-zero status -50 matches none of the
documented taxonomy codes, and `error_from_status` translates it to the
*base* class `SeekCameraError`, which is not the "other error" class
`SeekCameraOtherError` (the class reserved for status -99). -/
theorem unmapped_status_neg50_yields_base_class :
    (-50 : Int) ≠ 0 ∧ (-50 : Int) ∉ mappedStatusCodes ∧
    error_from_status (-50) = .ok .baseError ∧
    SeekErrorKind.baseError ≠ SeekErrorKind.otherError := by
  decide

/-- C8 (amended): every non-zero status matching none of the documented
taxonomy codes fails closed to the generic *base* error class
`SeekCameraError` — translation neither crashes nor silently succeeds, and
the resulting class is returned for the caller to raise. -/
theorem unmapped_nonzero_status_fails_closed_to_base
    (status : Int) (h0 : status ≠ 0) (hm : status ∉ mappedStatusCodes) :
    error_from_status status = .ok .baseError := by
  have hfind : subclasses.find? (fun cls => exception_for cls status) = none := by
    refine List.find?_eq_none.mpr (fun cls _ => ?_)
    intro hcls
    exact hm (exception_for_mem_mappedStatusCodes cls status hcls)
  simp [error_from_status, is_error, h0, hfind]

/-- C8 witness: the amended fail-closed theorem applied at status -50. -/
theorem unmapped_nonzero_status_fails_closed_to_base_witness :
    error_from_status (-50) = .ok .baseError :=
  unmapped_nonzero_status_fails_closed_to_base (-50) (by decide) (by decide)

end Seekcamera
